import Mathlib

/-!
Shallow embedding of the incident-diagnosis core of this repository
(commander_agent.py, log_agent.py, metrics_agent.py).

Python values flowing through the core are JSON-like dicts; they are
modelled by the inductive type `Json` below.  Numbers are modelled as
fixed-point decimal literals `num mantissa scale` (value mantissa/10^scale),
which covers every numeric literal of the repository (0.91, 0.92, 0.93,
100, 1.0) and renders exactly the way Python prints them.

`Json.dumps` models `json.dumps` with its default separators `", "` and
`": "` and ASCII escaping.  `pyStr` models Python `str()` (bare text for
strings, `repr`-style rendering for dicts/lists, with Python repr quote
selection simplified to always use single quotes).  Dict accesses
`d[k]` and `d.get(k, default)` are modelled by `Json.item` / `Json.pyGet`
returning `Except String` so that Python's KeyError / AttributeError /
TypeError paths are visible.  `list(set(xs))` is modelled by `List.dedup`
(CPython set iteration order is unspecified, so only the underlying set
of a deduplicated list is meaningful; `dedup` is one deterministic
representative).
-/

inductive Json where
  | null : Json
  | bool : Bool → Json
  | num : Int → Nat → Json
  | str : String → Json
  | arr : List Json → Json
  | obj : List (String × Json) → Json

/-- The character `\x7b` (left curly brace) as a string. -/
def lbrace : String := "\x7b"

/-- The character `\x7d` (right curly brace) as a string. -/
def rbrace : String := "\x7d"

/-- Double-quote character as a string. -/
def dq : String := "\""

/-- Single-quote character (`\x27`) as a string. -/
def squote : String := "\x27"

/-- Lowercase hex digit for `n < 16`. -/
def hexDigitChar (n : Nat) : Char :=
  if n < 10 then Char.ofNat (48 + n) else Char.ofNat (87 + n)

/-- Four lowercase hex digits of `n` (for `\uXXXX` escapes, `n < 65536`). -/
def uhex (n : Nat) : List Char :=
  [hexDigitChar (n / 4096 % 16), hexDigitChar (n / 256 % 16),
   hexDigitChar (n / 16 % 16), hexDigitChar (n % 16)]

/-- JSON escaping of one character, following CPython `json.dumps` with
`ensure_ascii=True`: quote, backslash, the short control escapes, and
`\uXXXX` for every other character outside printable ASCII. -/
def escapeChar (c : Char) : List Char :=
  if c.toNat = 34 then [Char.ofNat 92, Char.ofNat 34]
  else if c.toNat = 92 then [Char.ofNat 92, Char.ofNat 92]
  else if c.toNat = 10 then [Char.ofNat 92, 'n']
  else if c.toNat = 9 then [Char.ofNat 92, 't']
  else if c.toNat = 13 then [Char.ofNat 92, 'r']
  else if c.toNat = 8 then [Char.ofNat 92, 'b']
  else if c.toNat = 12 then [Char.ofNat 92, 'f']
  else if c.toNat < 32 ∨ 126 < c.toNat then Char.ofNat 92 :: 'u' :: uhex c.toNat
  else [c]

/-- JSON escaping of a character list. -/
def escapeList : List Char → List Char
  | [] => []
  | c :: t => escapeChar c ++ escapeList t

/-- JSON escaping of a string. -/
def escapeStr (s : String) : String := String.mk (escapeList s.data)

/-- Rendering of the fixed-point number `m / 10^k`: Python prints integers
(`k = 0`) without a decimal point and simple decimal floats with one
(`renderNum 10 1 = "1.0"`, `renderNum 93 2 = "0.93"`, `renderNum 100 0 = "100"`). -/
def renderNum (m : Int) (k : Nat) : String :=
  let ds := (toString m.natAbs).data
  let ds := if ds.length ≤ k then List.replicate (k + 1 - ds.length) '0' ++ ds else ds
  let body := if k = 0 then ds else ds.take (ds.length - k) ++ '.' :: ds.drop (ds.length - k)
  String.mk (if m < 0 then '-' :: body else body)

mutual

/-- Model of `json.dumps` with CPython default separators. -/
def Json.dumps : Json → String
  | .null => "null"
  | .bool true => "true"
  | .bool false => "false"
  | .num m k => renderNum m k
  | .str s => dq ++ escapeStr s ++ dq
  | .arr xs => "[" ++ dumpsElems xs ++ "]"
  | .obj kvs => lbrace ++ dumpsEntries kvs ++ rbrace

/-- Comma-space separated serialization of JSON array elements. -/
def dumpsElems : List Json → String
  | [] => ""
  | [j] => j.dumps
  | j :: j2 :: t => j.dumps ++ ", " ++ dumpsElems (j2 :: t)

/-- Comma-space separated serialization of JSON object entries (`"key": value`). -/
def dumpsEntries : List (String × Json) → String
  | [] => ""
  | [(k, v)] => dq ++ escapeStr k ++ dq ++ ": " ++ v.dumps
  | (k, v) :: e :: t =>
      dq ++ escapeStr k ++ dq ++ ": " ++ v.dumps ++ ", " ++ dumpsEntries (e :: t)

end

/-- Python `repr` escaping of one character inside a single-quoted string
literal; the repr quote-style switch for strings containing quotes is
simplified to backslash-escaping the single quote. -/
def pyEscapeChar (c : Char) : List Char :=
  if c.toNat = 92 then [Char.ofNat 92, Char.ofNat 92]
  else if c.toNat = 39 then [Char.ofNat 92, Char.ofNat 39]
  else if c.toNat = 10 then [Char.ofNat 92, 'n']
  else if c.toNat = 13 then [Char.ofNat 92, 'r']
  else if c.toNat = 9 then [Char.ofNat 92, 't']
  else [c]

/-- Python `repr` escaping of a character list. -/
def pyEscapeList : List Char → List Char
  | [] => []
  | c :: t => pyEscapeChar c ++ pyEscapeList t

/-- Python `repr` escaping of a string. -/
def pyEscape (s : String) : String := String.mk (pyEscapeList s.data)

mutual

/-- Model of Python `repr` on JSON-like values (`None` / `True` / `False`,
single-quoted strings, `[...]` lists, dicts with `": "` and `", "`). -/
def pyRepr : Json → String
  | .null => "None"
  | .bool true => "True"
  | .bool false => "False"
  | .num m k => renderNum m k
  | .str s => squote ++ pyEscape s ++ squote
  | .arr xs => "[" ++ pyElems xs ++ "]"
  | .obj kvs => lbrace ++ pyEntries kvs ++ rbrace

/-- Comma-space separated repr of list elements. -/
def pyElems : List Json → String
  | [] => ""
  | [j] => pyRepr j
  | j :: j2 :: t => pyRepr j ++ ", " ++ pyElems (j2 :: t)

/-- Comma-space separated repr of dict entries. -/
def pyEntries : List (String × Json) → String
  | [] => ""
  | [(k, v)] => squote ++ pyEscape k ++ squote ++ ": " ++ pyRepr v
  | (k, v) :: e :: t =>
      squote ++ pyEscape k ++ squote ++ ": " ++ pyRepr v ++ ", " ++ pyEntries (e :: t)

end

/-- Model of Python `str()`: a string prints bare, everything else as repr. -/
def pyStr : Json → String
  | .str s => s
  | j => pyRepr j

/-- Model of Python `.lower()` (ASCII case folding, matching the repository's
all-ASCII data). -/
def strLower (s : String) : String := String.mk (s.data.map Char.toLower)

/-- Executable check that the first character list is a prefix of the second. -/
def isPrefixCL : List Char → List Char → Bool
  | [], _ => true
  | _ :: _, [] => false
  | a :: as, b :: bs => a == b && isPrefixCL as bs

/-- Executable check that `needle` occurs as a contiguous sublist of `hay`. -/
def infixCL (needle : List Char) : List Char → Bool
  | [] => needle.isEmpty
  | hay@(_ :: bs) => isPrefixCL needle hay || infixCL needle bs

/-- Model of the Python substring test `needle in hay`. -/
def strContains (hay needle : String) : Bool := infixCL needle.data hay.data

/-- First-match lookup in an association list of JSON object entries.
(Python dict literals cannot carry duplicate keys, so every object built
by the repository has distinct keys and first-match agrees with dict
lookup.) -/
def lookupEntries (kvs : List (String × Json)) (key : String) : Option Json :=
  match kvs with
  | [] => none
  | (k, v) :: t => if k = key then some v else lookupEntries t key

/-- Model of the Python subscript `j[key]`: KeyError when the key is absent,
TypeError when the value is not a dict. -/
def Json.item (j : Json) (key : String) : Except String Json :=
  match j with
  | .obj kvs =>
    match lookupEntries kvs key with
    | some v => .ok v
    | none => .error ("KeyError: " ++ key)
  | _ => .error "TypeError: object is not subscriptable"

/-- Model of Python `j.get(key, dflt)`: AttributeError when `j` is not a
dict, the default when the key is absent. -/
def Json.pyGet (j : Json) (key : String) (dflt : Json) : Except String Json :=
  match j with
  | .obj kvs =>
    match lookupEntries kvs key with
    | some v => .ok v
    | none => .ok dflt
  | _ => .error "AttributeError: get"

/-- Whether a JSON value is a dict carrying the given key. -/
def Json.hasKey (j : Json) (key : String) : Bool :=
  match j with
  | .obj kvs => kvs.any (fun kv => kv.1 == key)
  | _ => false

/-- Whether a JSON value is a dict. -/
def Json.isObj : Json → Bool
  | .obj _ => true
  | _ => false

/-!
Embedded source functions.

`analyze_logs` (log_agent.py), `analyze_metrics` (metrics_agent.py),
`decide_agents` and `synthesize_verdict` (commander_agent.py) are the
pure core of the repository; the Azure client wiring and file loaders
around them are I/O shell.  Python dict returns are modelled as
structures whose fields list the dict keys in source order; `Except`
propagates the KeyError / AttributeError paths of the subscripts.
-/

/-- Output dict of `analyze_logs` / `analyze_metrics` (keys in source
order: agent, incident_id, findings, evidence, hypothesis, confidence). -/
structure FindingsRecord where
  agent : String
  incident_id : Json
  findings : List String
  evidence : List (String × Bool)
  hypothesis : String
  confidence : Json

/-- JSON value of a findings record, as `json.dumps` sees the returned dict. -/
def FindingsRecord.toJson (r : FindingsRecord) : Json :=
  .obj [("agent", .str r.agent),
        ("incident_id", r.incident_id),
        ("findings", .arr (r.findings.map .str)),
        ("evidence", .obj (r.evidence.map (fun kv => (kv.1, .bool kv.2)))),
        ("hypothesis", .str r.hypothesis),
        ("confidence", r.confidence)]

/-- The fixed hypothesis string of log_agent.py (the two adjacent Python
string literals concatenate). -/
def logHypothesis : String :=
  "Log patterns indicate downstream database connection saturation triggering retries and circuit breaker activation"

/-- The fixed hypothesis string of metrics_agent.py. -/
def metricHypothesis : String :=
  "Metrics indicate database capacity constrained by connection limits rather than compute resources, amplified by application autoscaling"

/-- log_agent.py `analyze_logs`: serialize the `logs` slice of the context
to lowercase text, fire the four fixed triggers, and return the findings
record with the fixed hypothesis and confidence 0.93. -/
def analyze_logs (input_payload : Json) : Except String FindingsRecord :=
  match Json.item input_payload "incident" with
  | .error e => .error e
  | .ok incident =>
  match Json.item input_payload "context" with
  | .error e => .error e
  | .ok context =>
  match Json.item incident "incident_id" with
  | .error e => .error e
  | .ok incident_id =>
  match Json.pyGet context "logs" (Json.obj []) with
  | .error e => .error e
  | .ok logs =>
    let findings : List String := []
    let evidence : List (String × Bool) := []
    let logs_text := strLower logs.dumps
    let (findings, evidence) :=
      if strContains logs_text "timeout" then
        (findings ++ ["Application experienced database timeouts"],
         evidence ++ [("timeouts", true)])
      else (findings, evidence)
    let (findings, evidence) :=
      if strContains logs_text "retry" then
        (findings ++ ["Retry storms detected in application logs"],
         evidence ++ [("retry_storms", true)])
      else (findings, evidence)
    let (findings, evidence) :=
      if strContains logs_text "too many connections" ||
         strContains logs_text "connection pool exhausted" then
        (findings ++ ["Database rejected connections due to connection limit"],
         evidence ++ [("connection_exhaustion", true)])
      else (findings, evidence)
    let (findings, evidence) :=
      if strContains logs_text "circuit" then
        (findings ++ ["Circuit breakers activated under load"],
         evidence ++ [("circuit_breaker", true)])
      else (findings, evidence)
    .ok { agent := "log_agent",
          incident_id := incident_id,
          findings := findings.dedup,
          evidence := evidence,
          hypothesis := logHypothesis,
          confidence := Json.num 93 2 }

/-- metrics_agent.py `analyze_metrics`: serialize the `metrics` slice of
the context to lowercase text, fire the four fixed triggers, and return
the findings record with the fixed hypothesis and confidence 0.91. -/
def analyze_metrics (input_payload : Json) : Except String FindingsRecord :=
  match Json.item input_payload "incident" with
  | .error e => .error e
  | .ok incident =>
  match Json.item input_payload "context" with
  | .error e => .error e
  | .ok context =>
  match Json.item incident "incident_id" with
  | .error e => .error e
  | .ok incident_id =>
  match Json.pyGet context "metrics" (Json.obj []) with
  | .error e => .error e
  | .ok metrics =>
    let findings : List String := []
    let evidence : List (String × Bool) := []
    let metrics_text := strLower metrics.dumps
    let (findings, evidence) :=
      if strContains metrics_text "connection" &&
         (strContains metrics_text "1.0" || strContains metrics_text "100") then
        (findings ++ ["Database active connections reached maximum capacity"],
         evidence ++ [("db_connection_saturation", true)])
      else (findings, evidence)
    let (findings, evidence) :=
      if strContains metrics_text "replica" || strContains metrics_text "autoscale" then
        (findings ++ ["Application autoscaled rapidly under traffic spike"],
         evidence ++ [("autoscaling_event", true)])
      else (findings, evidence)
    let (findings, evidence) :=
      if strContains metrics_text "latency" || strContains metrics_text "p99" ||
         strContains metrics_text "p95" then
        (findings ++ ["Latency increased in correlation with load and saturation"],
         evidence ++ [("latency_spike", true)])
      else (findings, evidence)
    let (findings, evidence) :=
      if strContains metrics_text "cpu" && strContains metrics_text "low" then
        (findings ++ ["Database CPU remained underutilized during incident"],
         evidence ++ [("cpu_not_bottleneck", true)])
      else (findings, evidence)
    .ok { agent := "metric_agent",
          incident_id := incident_id,
          findings := findings.dedup,
          evidence := evidence,
          hypothesis := metricHypothesis,
          confidence := Json.num 91 2 }

/-- Output dict of `decide_agents`. -/
structure AgentDecision where
  incident_id : Json
  agents_to_call : List String

/-- Keyword group of commander_agent.py routing to logs_agent. -/
def logsKeywords : List String :=
  ["latency", "timeout", "retry", "error", "circuit", "failure"]

/-- Keyword group of commander_agent.py routing to metrics_agent. -/
def metricsKeywords : List String :=
  ["capacity", "exhaustion", "connections", "autoscaling", "saturation", "usage"]

/-- Keyword group of commander_agent.py routing to deploy_intelligence_agent. -/
def deployKeywords : List String :=
  ["deployment", "config", "change", "release"]

/-- commander_agent.py `decide_agents`: lowercase the `str()` rendering of
`expected_symptoms` and append a role for each keyword group that matches. -/
def decide_agents (incident : Json) : Except String AgentDecision :=
  match Json.pyGet incident "expected_symptoms" (Json.obj []) with
  | .error e => .error e
  | .ok expectedVal =>
    let expected := strLower (pyStr expectedVal)
    let agents : List String := []
    let agents :=
      if logsKeywords.any (fun k => strContains expected k) then
        agents ++ ["logs_agent"]
      else agents
    let agents :=
      if metricsKeywords.any (fun k => strContains expected k) then
        agents ++ ["metrics_agent"]
      else agents
    let agents :=
      if deployKeywords.any (fun k => strContains expected k) then
        agents ++ ["deploy_intelligence_agent"]
      else agents
    match Json.item incident "incident_id" with
    | .error e => .error e
    | .ok incident_id => .ok { incident_id := incident_id, agents_to_call := agents.dedup }

/-- The `recommended_actions` dict of a verdict. -/
structure Remediation where
  immediate : List String
  short_term : List String
  long_term : List String

/-- Output dict of `synthesize_verdict`. -/
structure Verdict where
  incident_id : Json
  severity : Json
  root_cause : String
  failure_summary : List String
  recommended_actions : Remediation
  confidence : Json

/-- The connection-pool-exhaustion root-cause narrative of
commander_agent.py (the two adjacent string literals concatenate). -/
def poolRootCause : String :=
  "Database connection pool exhaustion caused by application scaling without corresponding database capacity"

/-- Model of `" ".join(...)` over a list of already-built strings. -/
def joinSpace : List String → String
  | [] => ""
  | [s] => s
  | s :: s2 :: t => s ++ " " ++ joinSpace (s2 :: t)

/-- The combined lowercase serialization of all findings records consumed
by `synthesize_verdict`. -/
def combinedTextOf (agent_findings : List Json) : String :=
  joinSpace (agent_findings.map (fun f => strLower f.dumps))

/-- commander_agent.py `synthesize_verdict`: evaluate the fixed rule chain
over the combined findings blob, then copy `incident_id` and `severity`
from the incident (the Python dict literal subscripts the incident when
building the return value, so a missing key raises there). -/
def synthesize_verdict (incident : Json) (agent_findings : List Json) :
    Except String Verdict :=
  let combined_text := combinedTextOf agent_findings
  let failure_summary : List String := []
  let remediation : Remediation := { immediate := [], short_term := [], long_term := [] }
  let root_cause := "Undetermined"
  let (root_cause, failure_summary, remediation) :=
    if strContains combined_text "connection" || strContains combined_text "dbtimeout" then
      (poolRootCause,
       failure_summary ++ ["Database max_connections limit exceeded"],
       { remediation with
           immediate := remediation.immediate ++ ["Increase database max_connections temporarily"] })
    else (root_cause, failure_summary, remediation)
  let failure_summary :=
    if strContains combined_text "retry" then
      failure_summary ++ ["Retry storms amplified database pressure"]
    else failure_summary
  let (failure_summary, remediation) :=
    if strContains combined_text "autoscaling" then
      (failure_summary ++ ["Application autoscaled without database capacity alignment"],
       { remediation with
           short_term := remediation.short_term ++ ["Reduce application replica count"] })
    else (failure_summary, remediation)
  let remediation :=
    if strContains combined_text "deployment" || strContains combined_text "config" then
      { remediation with
          immediate := remediation.immediate ++ ["Rollback recent configuration deployment"] }
    else remediation
  let remediation :=
    { remediation with
        long_term := remediation.long_term ++
          ["Introduce centralized connection pooling",
           "Implement capacity-aware autoscaling",
           "Add read replicas or shard database workload"] }
  match Json.item incident "incident_id" with
  | .error e => .error e
  | .ok incident_id =>
  match Json.item incident "severity" with
  | .error e => .error e
  | .ok severity =>
    .ok { incident_id := incident_id,
          severity := severity,
          root_cause := root_cause,
          failure_summary := failure_summary,
          recommended_actions := remediation,
          confidence := Json.num 92 2 }

/-- The incident dict of the sprint-0 demo driver (identity keys only). -/
def demoIncident : Json :=
  Json.obj [("incident_id", Json.str "inc-db-5001"), ("severity", Json.str "SEV-1")]

/-- A small log-agent input whose logs slice fires the timeout and retry
triggers. -/
def demoLogPayload : Json :=
  Json.obj [("incident", demoIncident),
            ("context", Json.obj
              [("logs", Json.obj [("application", Json.str "timeout retry")])])]

/-- The record `analyze_logs` returns on `demoLogPayload`. -/
def demoLogRecord : FindingsRecord :=
  { agent := "log_agent",
    incident_id := Json.str "inc-db-5001",
    findings := ["Application experienced database timeouts",
                 "Retry storms detected in application logs"],
    evidence := [("timeouts", true), ("retry_storms", true)],
    hypothesis := logHypothesis,
    confidence := Json.num 93 2 }

/-- A small metric-agent input whose metrics slice fires the
connection-saturation trigger. -/
def demoMetricPayload : Json :=
  Json.obj [("incident", demoIncident),
            ("context", Json.obj
              [("metrics", Json.obj [("database", Json.str "connection usage 100")])])]

/-- The record `analyze_metrics` returns on `demoMetricPayload`. -/
def demoMetricRecord : FindingsRecord :=
  { agent := "metric_agent",
    incident_id := Json.str "inc-db-5001",
    findings := ["Database active connections reached maximum capacity"],
    evidence := [("db_connection_saturation", true)],
    hypothesis := metricHypothesis,
    confidence := Json.num 91 2 }

/-- A payload carrying incident and context but no `logs`/`metrics` key. -/
def demoBarePayload : Json :=
  Json.obj [("incident", demoIncident), ("context", Json.obj [])]

/-- An incident whose `expected_symptoms` text is exactly `release`. -/
def releaseIncident : Json :=
  Json.obj [("incident_id", Json.str "inc-rel-1"),
            ("expected_symptoms", Json.str "release")]

/-- The verdict `synthesize_verdict` produces when the combined blob
contains `connection` but no other trigger keyword. -/
def verdictConn : Verdict :=
  { incident_id := Json.str "inc-db-5001",
    severity := Json.str "SEV-1",
    root_cause := poolRootCause,
    failure_summary := ["Database max_connections limit exceeded"],
    recommended_actions :=
      { immediate := ["Increase database max_connections temporarily"],
        short_term := [],
        long_term := ["Introduce centralized connection pooling",
                      "Implement capacity-aware autoscaling",
                      "Add read replicas or shard database workload"] },
    confidence := Json.num 92 2 }

/-- The verdict `synthesize_verdict` produces when the combined blob
contains `connection` and `retry` but no other trigger keyword. -/
def verdictConnRetry : Verdict :=
  { incident_id := Json.str "inc-db-5001",
    severity := Json.str "SEV-1",
    root_cause := poolRootCause,
    failure_summary := ["Database max_connections limit exceeded",
                        "Retry storms amplified database pressure"],
    recommended_actions :=
      { immediate := ["Increase database max_connections temporarily"],
        short_term := [],
        long_term := ["Introduce centralized connection pooling",
                      "Implement capacity-aware autoscaling",
                      "Add read replicas or shard database workload"] },
    confidence := Json.num 92 2 }

/-!
Toolkit: substring reasoning for `strContains`, serialization
decomposition lemmas, and closed forms of the embedded functions.
-/

theorem strData_append (a b : String) : (a ++ b).data = a.data ++ b.data := rfl

theorem strLower_data (s : String) : (strLower s).data = s.data.map Char.toLower := rfl

theorem strEq_of_data {a b : String} (h : a.data = b.data) : a = b := by
  cases a; cases b; exact congrArg String.mk h

theorem isPrefixCL_iff (n h : List Char) : isPrefixCL n h = true ↔ ∃ t, h = n ++ t := by
  induction n generalizing h with
  | nil => simp [isPrefixCL]
  | cons a as ih =>
    cases h with
    | nil => simp [isPrefixCL]
    | cons b bs =>
      simp only [isPrefixCL, Bool.and_eq_true, beq_iff_eq, ih, List.cons_append,
        List.cons.injEq]
      constructor
      · rintro ⟨hab, t, ht⟩
        exact ⟨t, hab.symm, ht⟩
      · rintro ⟨t, hba, ht⟩
        exact ⟨hba.symm, t, ht⟩

theorem infixCL_iff (n h : List Char) : infixCL n h = true ↔ ∃ x y, h = x ++ n ++ y := by
  induction h with
  | nil =>
    simp only [infixCL, List.isEmpty_iff]
    constructor
    · rintro rfl
      exact ⟨[], [], rfl⟩
    · rintro ⟨x, y, hxy⟩
      rcases List.append_eq_nil.mp hxy.symm with ⟨h1, h2⟩
      rcases List.append_eq_nil.mp h1 with ⟨_, h3⟩
      exact h3
  | cons b bs ih =>
    simp only [infixCL, Bool.or_eq_true, isPrefixCL_iff, ih]
    constructor
    · rintro (⟨t, ht⟩ | ⟨x, y, hxy⟩)
      · exact ⟨[], t, by simpa using ht⟩
      · exact ⟨b :: x, y, by simp [hxy]⟩
    · rintro ⟨x, y, hxy⟩
      cases x with
      | nil => exact Or.inl ⟨y, by simpa using hxy⟩
      | cons c cs =>
        rcases List.cons.injEq .. ▸ hxy with ⟨_, hbs⟩
        exact Or.inr ⟨cs, y, hbs⟩

theorem infixCL_refl (n : List Char) : infixCL n n = true :=
  (infixCL_iff n n).mpr ⟨[], [], by simp⟩

theorem infixCL_append_left {n a : List Char} (b : List Char)
    (h : infixCL n a = true) : infixCL n (a ++ b) = true := by
  rcases (infixCL_iff n a).mp h with ⟨x, y, rfl⟩
  exact (infixCL_iff _ _).mpr ⟨x, y ++ b, by simp⟩

theorem infixCL_append_right {n b : List Char} (a : List Char)
    (h : infixCL n b = true) : infixCL n (a ++ b) = true := by
  rcases (infixCL_iff n b).mp h with ⟨x, y, rfl⟩
  exact (infixCL_iff _ _).mpr ⟨a ++ x, y, by simp⟩

theorem infixCL_trans {n m h : List Char} (h1 : infixCL n m = true)
    (h2 : infixCL m h = true) : infixCL n h = true := by
  rcases (infixCL_iff n m).mp h1 with ⟨u, v, rfl⟩
  rcases (infixCL_iff _ h).mp h2 with ⟨x, y, rfl⟩
  exact (infixCL_iff _ _).mpr ⟨x ++ u, v ++ y, by simp⟩

theorem infixCL_map (f : Char → Char) {n h : List Char}
    (hi : infixCL n h = true) : infixCL (n.map f) (h.map f) = true := by
  rcases (infixCL_iff n h).mp hi with ⟨x, y, rfl⟩
  exact (infixCL_iff _ _).mpr ⟨x.map f, y.map f, by simp⟩

theorem strContains_append_left {a n : String} (b : String)
    (h : strContains a n = true) : strContains (a ++ b) n = true := by
  unfold strContains at *
  rw [strData_append]
  exact infixCL_append_left _ h

theorem strContains_append_right {b n : String} (a : String)
    (h : strContains b n = true) : strContains (a ++ b) n = true := by
  unfold strContains at *
  rw [strData_append]
  exact infixCL_append_right _ h

/-- If a part occurs inside a blob and the needle occurs inside the part,
the needle occurs inside the blob. -/
theorem strContains_of_part {blob part n : String}
    (hp : infixCL part.data blob.data = true)
    (hn : strContains part n = true) : strContains blob n = true :=
  infixCL_trans hn hp

/-- Lowercasing preserves occurrence. -/
theorem infixCL_lower {part blob : String}
    (hp : infixCL part.data blob.data = true) :
    infixCL (strLower part).data (strLower blob).data = true := by
  rw [strLower_data, strLower_data]
  exact infixCL_map _ hp

/-- The serialized value of any entry occurs inside the serialized entry list. -/
theorem dumpsEntries_of_mem {kvs : List (String × Json)} {k : String} {v : Json}
    (hmem : (k, v) ∈ kvs) :
    infixCL (v.dumps).data (dumpsEntries kvs).data = true := by
  induction kvs with
  | nil => cases hmem
  | cons e t ih =>
    cases hmem with
    | head =>
      cases t with
      | nil =>
        simp only [dumpsEntries, strData_append, List.append_assoc]
        exact infixCL_append_right _ (infixCL_append_right _ (infixCL_append_right _
          (infixCL_append_right _ (infixCL_refl _))))
      | cons e2 t2 =>
        simp only [dumpsEntries, strData_append, List.append_assoc]
        exact infixCL_append_right _ (infixCL_append_right _ (infixCL_append_right _
          (infixCL_append_right _ (infixCL_append_left _ (infixCL_refl _)))))
    | tail _ hmem2 =>
      cases t with
      | nil => cases hmem2
      | cons e2 t2 =>
        obtain ⟨k0, v0⟩ := e
        simp only [dumpsEntries, strData_append, List.append_assoc]
        exact infixCL_append_right _ (infixCL_append_right _ (infixCL_append_right _
          (infixCL_append_right _ (infixCL_append_right _ (infixCL_append_right _
            (ih hmem2))))))

/-- The serialized value of any entry occurs inside the serialized object. -/
theorem dumps_of_entry {kvs : List (String × Json)} {k : String} {v : Json}
    (hmem : (k, v) ∈ kvs) :
    infixCL (v.dumps).data ((Json.obj kvs).dumps).data = true := by
  have h := dumpsEntries_of_mem hmem
  simp only [Json.dumps, strData_append, List.append_assoc]
  exact infixCL_append_right _ (infixCL_append_left _ h)

/-- Appending one more string to a `" ".join` only extends the text on the
right. -/
theorem joinSpace_snoc (l : List String) (s : String) :
    ∃ t, (joinSpace (l ++ [s])).data = (joinSpace l).data ++ t := by
  induction l with
  | nil => exact ⟨s.data, rfl⟩
  | cons a t ih =>
    cases t with
    | nil =>
      exact ⟨" ".data ++ s.data, by simp [joinSpace, strData_append, List.append_assoc]⟩
    | cons b t2 =>
      rcases ih with ⟨u, hu⟩
      refine ⟨u, ?_⟩
      show (a ++ " " ++ joinSpace (b :: (t2 ++ [s]))).data =
        (a ++ " " ++ joinSpace (b :: t2)).data ++ u
      have hu2 : (joinSpace (b :: (t2 ++ [s]))).data = (joinSpace (b :: t2)).data ++ u := hu
      simp only [strData_append, List.append_assoc, hu2]

/-- Every member of a `" ".join` occurs inside the joined text. -/
theorem joinSpace_mem {l : List String} {s : String} (hmem : s ∈ l) :
    infixCL s.data (joinSpace l).data = true := by
  induction l with
  | nil => cases hmem
  | cons a t ih =>
    cases hmem with
    | head =>
      cases t with
      | nil => exact infixCL_refl _
      | cons b t2 =>
        simp only [joinSpace, strData_append, List.append_assoc]
        exact infixCL_append_left _ (infixCL_refl _)
    | tail _ h2 =>
      cases t with
      | nil => cases h2
      | cons b t2 =>
        simp only [joinSpace, strData_append, List.append_assoc]
        exact infixCL_append_right _ (infixCL_append_right _ (ih h2))

/-- A keyword found in the combined blob of `fs` is still found after one
more findings record is appended. -/
theorem combinedTextOf_snoc (fs : List Json) (g : Json) (n : String)
    (h : strContains (combinedTextOf fs) n = true) :
    strContains (combinedTextOf (fs ++ [g])) n = true := by
  unfold combinedTextOf at *
  rw [List.map_append]
  simp only [List.map_cons, List.map_nil]
  rcases joinSpace_snoc (fs.map (fun f => strLower f.dumps)) (strLower g.dumps) with ⟨t, ht⟩
  unfold strContains at *
  rw [ht]
  exact infixCL_append_left _ h

/-- The lowercase serialization of any member record occurs inside the
combined blob. -/
theorem combinedTextOf_mem {fs : List Json} {f : Json} (hmem : f ∈ fs) :
    infixCL (strLower f.dumps).data (combinedTextOf fs).data = true := by
  unfold combinedTextOf
  exact joinSpace_mem (List.mem_map_of_mem _ hmem)

/-- Closed form of `analyze_logs` on an input whose access path succeeds. -/
theorem analyze_logs_eq (p incident context incident_id logs : Json)
    (h1 : Json.item p "incident" = .ok incident)
    (h2 : Json.item p "context" = .ok context)
    (h3 : Json.item incident "incident_id" = .ok incident_id)
    (h4 : Json.pyGet context "logs" (Json.obj []) = .ok logs) :
    analyze_logs p = .ok
      { agent := "log_agent",
        incident_id := incident_id,
        findings :=
          ((if strContains (strLower logs.dumps) "timeout" then
              ["Application experienced database timeouts"] else []) ++
           (if strContains (strLower logs.dumps) "retry" then
              ["Retry storms detected in application logs"] else []) ++
           (if strContains (strLower logs.dumps) "too many connections" ||
               strContains (strLower logs.dumps) "connection pool exhausted" then
              ["Database rejected connections due to connection limit"] else []) ++
           (if strContains (strLower logs.dumps) "circuit" then
              ["Circuit breakers activated under load"] else [])).dedup,
        evidence :=
          (if strContains (strLower logs.dumps) "timeout" then
             [("timeouts", true)] else []) ++
          (if strContains (strLower logs.dumps) "retry" then
             [("retry_storms", true)] else []) ++
          (if strContains (strLower logs.dumps) "too many connections" ||
              strContains (strLower logs.dumps) "connection pool exhausted" then
             [("connection_exhaustion", true)] else []) ++
          (if strContains (strLower logs.dumps) "circuit" then
             [("circuit_breaker", true)] else []),
        hypothesis := logHypothesis,
        confidence := Json.num 93 2 } := by
  simp only [analyze_logs, h1, h2, h3, h4]
  cases hb1 : strContains (strLower logs.dumps) "timeout" <;>
  cases hb2 : strContains (strLower logs.dumps) "retry" <;>
  cases hb3 : (strContains (strLower logs.dumps) "too many connections" ||
      strContains (strLower logs.dumps) "connection pool exhausted") <;>
  cases hb4 : strContains (strLower logs.dumps) "circuit" <;>
  simp [hb1, hb2, hb3, hb4]

/-- Closed form of `analyze_metrics` on an input whose access path succeeds. -/
theorem analyze_metrics_eq (p incident context incident_id metrics : Json)
    (h1 : Json.item p "incident" = .ok incident)
    (h2 : Json.item p "context" = .ok context)
    (h3 : Json.item incident "incident_id" = .ok incident_id)
    (h4 : Json.pyGet context "metrics" (Json.obj []) = .ok metrics) :
    analyze_metrics p = .ok
      { agent := "metric_agent",
        incident_id := incident_id,
        findings :=
          ((if strContains (strLower metrics.dumps) "connection" &&
               (strContains (strLower metrics.dumps) "1.0" ||
                strContains (strLower metrics.dumps) "100") then
              ["Database active connections reached maximum capacity"] else []) ++
           (if strContains (strLower metrics.dumps) "replica" ||
               strContains (strLower metrics.dumps) "autoscale" then
              ["Application autoscaled rapidly under traffic spike"] else []) ++
           (if strContains (strLower metrics.dumps) "latency" ||
               strContains (strLower metrics.dumps) "p99" ||
               strContains (strLower metrics.dumps) "p95" then
              ["Latency increased in correlation with load and saturation"] else []) ++
           (if strContains (strLower metrics.dumps) "cpu" &&
               strContains (strLower metrics.dumps) "low" then
              ["Database CPU remained underutilized during incident"] else [])).dedup,
        evidence :=
          (if strContains (strLower metrics.dumps) "connection" &&
              (strContains (strLower metrics.dumps) "1.0" ||
               strContains (strLower metrics.dumps) "100") then
             [("db_connection_saturation", true)] else []) ++
          (if strContains (strLower metrics.dumps) "replica" ||
              strContains (strLower metrics.dumps) "autoscale" then
             [("autoscaling_event", true)] else []) ++
          (if strContains (strLower metrics.dumps) "latency" ||
              strContains (strLower metrics.dumps) "p99" ||
              strContains (strLower metrics.dumps) "p95" then
             [("latency_spike", true)] else []) ++
          (if strContains (strLower metrics.dumps) "cpu" &&
              strContains (strLower metrics.dumps) "low" then
             [("cpu_not_bottleneck", true)] else []),
        hypothesis := metricHypothesis,
        confidence := Json.num 91 2 } := by
  simp only [analyze_metrics, h1, h2, h3, h4]
  cases hb1 : (strContains (strLower metrics.dumps) "connection" &&
      (strContains (strLower metrics.dumps) "1.0" ||
       strContains (strLower metrics.dumps) "100")) <;>
  cases hb2 : (strContains (strLower metrics.dumps) "replica" ||
      strContains (strLower metrics.dumps) "autoscale") <;>
  cases hb3 : (strContains (strLower metrics.dumps) "latency" ||
      strContains (strLower metrics.dumps) "p99" ||
      strContains (strLower metrics.dumps) "p95") <;>
  cases hb4 : (strContains (strLower metrics.dumps) "cpu" &&
      strContains (strLower metrics.dumps) "low") <;>
  simp [hb1, hb2, hb3, hb4]

/-- Closed form of `decide_agents` on an incident whose access path succeeds. -/
theorem decide_agents_eq (incident expectedVal incident_id : Json)
    (h1 : Json.pyGet incident "expected_symptoms" (Json.obj []) = .ok expectedVal)
    (h2 : Json.item incident "incident_id" = .ok incident_id) :
    decide_agents incident = .ok
      { incident_id := incident_id,
        agents_to_call :=
          ((if logsKeywords.any (fun k => strContains (strLower (pyStr expectedVal)) k) then
              ["logs_agent"] else []) ++
           (if metricsKeywords.any (fun k => strContains (strLower (pyStr expectedVal)) k) then
              ["metrics_agent"] else []) ++
           (if deployKeywords.any (fun k => strContains (strLower (pyStr expectedVal)) k) then
              ["deploy_intelligence_agent"] else [])).dedup } := by
  simp only [decide_agents, h1]
  cases hb1 : logsKeywords.any (fun k => strContains (strLower (pyStr expectedVal)) k) <;>
  cases hb2 : metricsKeywords.any (fun k => strContains (strLower (pyStr expectedVal)) k) <;>
  cases hb3 : deployKeywords.any (fun k => strContains (strLower (pyStr expectedVal)) k) <;>
  simp [hb1, hb2, hb3, h2]

/-- Closed form of `synthesize_verdict` on an incident carrying both
identity keys. -/
theorem synthesize_verdict_eq (incident : Json) (fs : List Json) (iid sev : Json)
    (h1 : Json.item incident "incident_id" = .ok iid)
    (h2 : Json.item incident "severity" = .ok sev) :
    synthesize_verdict incident fs = .ok
      { incident_id := iid,
        severity := sev,
        root_cause :=
          if strContains (combinedTextOf fs) "connection" ||
             strContains (combinedTextOf fs) "dbtimeout" then
            poolRootCause else "Undetermined",
        failure_summary :=
          (if strContains (combinedTextOf fs) "connection" ||
              strContains (combinedTextOf fs) "dbtimeout" then
             ["Database max_connections limit exceeded"] else []) ++
          (if strContains (combinedTextOf fs) "retry" then
             ["Retry storms amplified database pressure"] else []) ++
          (if strContains (combinedTextOf fs) "autoscaling" then
             ["Application autoscaled without database capacity alignment"] else []),
        recommended_actions :=
          { immediate :=
              (if strContains (combinedTextOf fs) "connection" ||
                  strContains (combinedTextOf fs) "dbtimeout" then
                 ["Increase database max_connections temporarily"] else []) ++
              (if strContains (combinedTextOf fs) "deployment" ||
                  strContains (combinedTextOf fs) "config" then
                 ["Rollback recent configuration deployment"] else []),
            short_term :=
              if strContains (combinedTextOf fs) "autoscaling" then
                ["Reduce application replica count"] else [],
            long_term :=
              ["Introduce centralized connection pooling",
               "Implement capacity-aware autoscaling",
               "Add read replicas or shard database workload"] },
        confidence := Json.num 92 2 } := by
  simp only [synthesize_verdict, h1, h2]
  cases hb1 : (strContains (combinedTextOf fs) "connection" ||
      strContains (combinedTextOf fs) "dbtimeout") <;>
  cases hb2 : strContains (combinedTextOf fs) "retry" <;>
  cases hb3 : strContains (combinedTextOf fs) "autoscaling" <;>
  cases hb4 : (strContains (combinedTextOf fs) "deployment" ||
      strContains (combinedTextOf fs) "config") <;>
  simp [hb1, hb2, hb3, hb4, h1, h2]

/-- A dict without the key looks the key up to `none`. -/
theorem lookupEntries_eq_none {kvs : List (String × Json)} {key : String}
    (h : Json.hasKey (Json.obj kvs) key = false) : lookupEntries kvs key = none := by
  induction kvs with
  | nil => rfl
  | cons e t ih =>
    simp only [Json.hasKey, List.any_cons, Bool.or_eq_false_iff] at h
    obtain ⟨h1, h2⟩ := h
    have hne : e.1 ≠ key := by
      intro hk
      rw [hk] at h1
      simp at h1
    obtain ⟨k0, v0⟩ := e
    simp only [lookupEntries, if_neg hne]
    exact ih (by simpa [Json.hasKey] using h2)

/-- Python `j.get(key, d)` succeeds on every dict. -/
theorem pyGet_ok_of_isObj {j : Json} (key : String) (d : Json)
    (hobj : j.isObj = true) : ∃ v, j.pyGet key d = .ok v := by
  cases j <;> simp [Json.isObj] at hobj
  case obj kvs =>
    cases hl : lookupEntries kvs key with
    | none => exact ⟨d, by simp [Json.pyGet, hl]⟩
    | some v => exact ⟨v, by simp [Json.pyGet, hl]⟩

/-- Python `j.get(key, d)` returns the default on a dict without the key. -/
theorem pyGet_default_of_hasKey_false {j : Json} {key : String} (d : Json)
    (hobj : j.isObj = true) (h : Json.hasKey j key = false) :
    j.pyGet key d = .ok d := by
  cases j <;> simp [Json.isObj] at hobj
  case obj kvs => simp [Json.pyGet, lookupEntries_eq_none h]

/-- A successful `analyze_logs` run pins down its whole access path. -/
theorem analyze_logs_ok_keys {p : Json} {r : FindingsRecord}
    (h : analyze_logs p = .ok r) :
    ∃ incident context incident_id logs,
      Json.item p "incident" = .ok incident ∧
      Json.item p "context" = .ok context ∧
      Json.item incident "incident_id" = .ok incident_id ∧
      Json.pyGet context "logs" (Json.obj []) = .ok logs := by
  unfold analyze_logs at h
  cases hi : Json.item p "incident" with
  | error e => simp [hi] at h
  | ok incident =>
    simp only [hi] at h
    cases hc : Json.item p "context" with
    | error e => simp [hc] at h
    | ok context =>
      simp only [hc] at h
      cases hii : Json.item incident "incident_id" with
      | error e => simp [hii] at h
      | ok incident_id =>
        simp only [hii] at h
        cases hl : Json.pyGet context "logs" (Json.obj []) with
        | error e => simp [hl] at h
        | ok logs => exact ⟨incident, context, incident_id, logs, rfl, rfl, hii, hl⟩

/-- A successful `analyze_metrics` run pins down its whole access path. -/
theorem analyze_metrics_ok_keys {p : Json} {r : FindingsRecord}
    (h : analyze_metrics p = .ok r) :
    ∃ incident context incident_id metrics,
      Json.item p "incident" = .ok incident ∧
      Json.item p "context" = .ok context ∧
      Json.item incident "incident_id" = .ok incident_id ∧
      Json.pyGet context "metrics" (Json.obj []) = .ok metrics := by
  unfold analyze_metrics at h
  cases hi : Json.item p "incident" with
  | error e => simp [hi] at h
  | ok incident =>
    simp only [hi] at h
    cases hc : Json.item p "context" with
    | error e => simp [hc] at h
    | ok context =>
      simp only [hc] at h
      cases hii : Json.item incident "incident_id" with
      | error e => simp [hii] at h
      | ok incident_id =>
        simp only [hii] at h
        cases hl : Json.pyGet context "metrics" (Json.obj []) with
        | error e => simp [hl] at h
        | ok metrics => exact ⟨incident, context, incident_id, metrics, rfl, rfl, hii, hl⟩

/-- A successful `synthesize_verdict` run pins down both identity keys. -/
theorem synthesize_ok_keys {incident : Json} {fs : List Json} {v : Verdict}
    (h : synthesize_verdict incident fs = .ok v) :
    ∃ iid sev, Json.item incident "incident_id" = .ok iid ∧
      Json.item incident "severity" = .ok sev := by
  unfold synthesize_verdict at h
  cases hii : Json.item incident "incident_id" with
  | error e => simp [hii] at h
  | ok iid =>
    simp only [hii] at h
    cases hsev : Json.item incident "severity" with
    | error e => simp [hsev] at h
    | ok sev => exact ⟨iid, sev, rfl, rfl⟩

/-- A successful `decide_agents` run pins down both access results. -/
theorem decide_agents_ok_keys {incident : Json} {d : AgentDecision}
    (h : decide_agents incident = .ok d) :
    ∃ ev iid, Json.pyGet incident "expected_symptoms" (Json.obj []) = .ok ev ∧
      Json.item incident "incident_id" = .ok iid := by
  unfold decide_agents at h
  cases he : Json.pyGet incident "expected_symptoms" (Json.obj []) with
  | error e => simp [he] at h
  | ok ev =>
    simp only [he] at h
    cases hii : Json.item incident "incident_id" with
    | error e => simp [hii] at h
    | ok iid => exact ⟨ev, iid, rfl, rfl⟩

/-- Constant fields of every record `analyze_logs` returns, and the
set-deduplicated shape of its findings. -/
theorem analyze_logs_ok_shape {p : Json} {r : FindingsRecord}
    (h : analyze_logs p = .ok r) :
    r.agent = "log_agent" ∧ r.hypothesis = logHypothesis ∧
    r.confidence = Json.num 93 2 ∧ ∃ l : List String, r.findings = l.dedup := by
  obtain ⟨incident, context, incident_id, logs, h1, h2, h3, h4⟩ := analyze_logs_ok_keys h
  have hcf := analyze_logs_eq p incident context incident_id logs h1 h2 h3 h4
  have hr := Except.ok.inj (h.symm.trans hcf)
  rw [hr]
  exact ⟨rfl, rfl, rfl, ⟨_, rfl⟩⟩

/-- Constant fields of every record `analyze_metrics` returns, and the
set-deduplicated shape of its findings. -/
theorem analyze_metrics_ok_shape {p : Json} {r : FindingsRecord}
    (h : analyze_metrics p = .ok r) :
    r.agent = "metric_agent" ∧ r.hypothesis = metricHypothesis ∧
    r.confidence = Json.num 91 2 ∧ ∃ l : List String, r.findings = l.dedup := by
  obtain ⟨incident, context, incident_id, metrics, h1, h2, h3, h4⟩ := analyze_metrics_ok_keys h
  have hcf := analyze_metrics_eq p incident context incident_id metrics h1 h2 h3 h4
  have hr := Except.ok.inj (h.symm.trans hcf)
  rw [hr]
  exact ⟨rfl, rfl, rfl, ⟨_, rfl⟩⟩

/-- The word `connection` occurs in the lowercase dump of every record whose
hypothesis is one of the two fixed extractor hypotheses. -/
theorem record_contains_connection (r : FindingsRecord)
    (h : r.hypothesis = logHypothesis ∨ r.hypothesis = metricHypothesis) :
    infixCL "connection".data ((strLower (FindingsRecord.toJson r).dumps).data) = true := by
  have hmem : ("hypothesis", Json.str r.hypothesis) ∈
      [("agent", Json.str r.agent), ("incident_id", r.incident_id),
       ("findings", Json.arr (r.findings.map Json.str)),
       ("evidence", Json.obj (r.evidence.map (fun kv => (kv.1, Json.bool kv.2)))),
       ("hypothesis", Json.str r.hypothesis), ("confidence", r.confidence)] := by
    simp
  have hinf : infixCL ((Json.str r.hypothesis).dumps).data
      ((FindingsRecord.toJson r).dumps).data := dumps_of_entry hmem
  have hlow : infixCL ((strLower (Json.str r.hypothesis).dumps)).data
      ((strLower (FindingsRecord.toJson r).dumps)).data = true := infixCL_lower hinf
  rcases h with h | h <;> rw [h] at hlow
  · exact infixCL_trans (by decide) hlow
  · exact infixCL_trans (by decide) hlow


/-!
Claim theorems.

One theorem per claim of the specification review, each preceded by a
doc comment naming the claim.
-/

/-- C1: if synthesize is given empty findings records for both agents (no
triggers fired), the returned verdict has root_cause equal to the
"Undetermined" sentinel, failure_summary equal to the empty sequence, and
long_term recommended actions containing exactly the three fixed entries.
An empty findings record is the empty JSON object, the "no evidence"
substitute of the spec's concurrency section; a record actually produced
by an extractor is never keyword-free (its fixed hypothesis contains
"connection", see the C2 theorem). -/
theorem C1_empty_records_undetermined :
    synthesize_verdict demoIncident [Json.obj [], Json.obj []] = .ok
      { incident_id := Json.str "inc-db-5001",
        severity := Json.str "SEV-1",
        root_cause := "Undetermined",
        failure_summary := [],
        recommended_actions :=
          { immediate := [],
            short_term := [],
            long_term := ["Introduce centralized connection pooling",
                          "Implement capacity-aware autoscaling",
                          "Add read replicas or shard database workload"] },
        confidence := Json.num 92 2 } := rfl

/-- C2: whenever the findings list handed to synthesize_verdict contains at
least one record actually produced by analyze_logs or analyze_metrics
(even one where no trigger fired), the verdict's root_cause is the
connection-pool-exhaustion narrative and never "Undetermined", because the
fixed hypothesis string of each extractor contains the substring
"connection" and so satisfies the synthesizer's first rule. -/
theorem C2_agent_record_forces_pool_root_cause
    (p : Json) (r : FindingsRecord) (incident : Json) (fs : List Json) (v : Verdict)
    (hr : analyze_logs p = .ok r ∨ analyze_metrics p = .ok r)
    (hmem : FindingsRecord.toJson r ∈ fs)
    (hv : synthesize_verdict incident fs = .ok v) :
    v.root_cause = poolRootCause ∧ v.root_cause ≠ "Undetermined" := by
  have hhyp : r.hypothesis = logHypothesis ∨ r.hypothesis = metricHypothesis := by
    rcases hr with h | h
    · exact Or.inl (analyze_logs_ok_shape h).2.1
    · exact Or.inr (analyze_metrics_ok_shape h).2.1
  have hconn := record_contains_connection r hhyp
  have hct : strContains (combinedTextOf fs) "connection" = true :=
    infixCL_trans hconn (combinedTextOf_mem hmem)
  obtain ⟨iid, sev, hii, hsev⟩ := synthesize_ok_keys hv
  have hveq := Except.ok.inj (hv.symm.trans (synthesize_verdict_eq incident fs iid sev hii hsev))
  rw [hveq]
  have hcond : (strContains (combinedTextOf fs) "connection" ||
      strContains (combinedTextOf fs) "dbtimeout") = true := by simp [hct]
  constructor
  · show (if strContains (combinedTextOf fs) "connection" ||
        strContains (combinedTextOf fs) "dbtimeout" then poolRootCause
        else "Undetermined") = poolRootCause
    rw [hcond]
    simp
  · show (if strContains (combinedTextOf fs) "connection" ||
        strContains (combinedTextOf fs) "dbtimeout" then poolRootCause
        else "Undetermined") ≠ "Undetermined"
    rw [hcond]
    decide

set_option maxRecDepth 40000 in
/-- Witness for C2 at the concrete demo log record. -/
theorem C2_agent_record_witness :
    verdictConnRetry.root_cause = poolRootCause ∧
    verdictConnRetry.root_cause ≠ "Undetermined" :=
  C2_agent_record_forces_pool_root_cause demoLogPayload demoLogRecord demoIncident
    [FindingsRecord.toJson demoLogRecord] verdictConnRetry
    (Or.inl rfl) (by simp) rfl

/-- C3 counterexample: the claim says the log extractor's record has
agent = "logs_agent" and the metric extractor's agent = "metrics_agent",
but the code emits "log_agent" and "metric_agent", which differ from the
selector's role identifiers. -/
theorem C3_agent_identifier_mismatch :
    (analyze_logs demoLogPayload).toOption.map FindingsRecord.agent = some "log_agent" ∧
    (analyze_metrics demoMetricPayload).toOption.map FindingsRecord.agent = some "metric_agent" ∧
    ("log_agent" : String) ≠ "logs_agent" ∧
    ("metric_agent" : String) ≠ "metrics_agent" :=
  ⟨rfl, rfl, by decide, by decide⟩

/-- C3 (amended): every FindingsRecord produced by a diagnostic agent has a
constant agent field, but the identifiers are "log_agent" for the log
extractor and "metric_agent" for the metric extractor, which are not the
role identifiers ("logs_agent" / "metrics_agent") the Agent Selector
emits. -/
theorem C3_agent_field_constant :
    (∀ p r, analyze_logs p = .ok r → r.agent = "log_agent") ∧
    (∀ p r, analyze_metrics p = .ok r → r.agent = "metric_agent") :=
  ⟨fun _ _ h => (analyze_logs_ok_shape h).1,
   fun _ _ h => (analyze_metrics_ok_shape h).1⟩

/-- Witness for C3 (amended) at the concrete demo payloads. -/
theorem C3_agent_field_constant_witness :
    demoLogRecord.agent = "log_agent" ∧ demoMetricRecord.agent = "metric_agent" :=
  ⟨C3_agent_field_constant.1 demoLogPayload demoLogRecord rfl,
   C3_agent_field_constant.2 demoMetricPayload demoMetricRecord rfl⟩

/-- C4: for all incidents, decide_agents returns a deduplicated subset of
the three known roles, the keyword groups fire independently, and an
expected_symptoms text containing only "release" yields exactly the
deploy_intelligence_agent role. -/
theorem C4_select_agents_contract :
    (∀ incident d, decide_agents incident = .ok d →
      (∀ a ∈ d.agents_to_call,
         a = "logs_agent" ∨ a = "metrics_agent" ∨ a = "deploy_intelligence_agent") ∧
      d.agents_to_call.Nodup ∧
      (∀ ev, Json.pyGet incident "expected_symptoms" (Json.obj []) = .ok ev →
        ((logsKeywords.any (fun k => strContains (strLower (pyStr ev)) k) = true →
            "logs_agent" ∈ d.agents_to_call) ∧
         (metricsKeywords.any (fun k => strContains (strLower (pyStr ev)) k) = true →
            "metrics_agent" ∈ d.agents_to_call) ∧
         (deployKeywords.any (fun k => strContains (strLower (pyStr ev)) k) = true →
            "deploy_intelligence_agent" ∈ d.agents_to_call)))) ∧
    decide_agents releaseIncident =
      .ok { incident_id := Json.str "inc-rel-1",
            agents_to_call := ["deploy_intelligence_agent"] } := by
  constructor
  · intro incident d hd
    obtain ⟨ev0, iid, hev0, hii⟩ := decide_agents_ok_keys hd
    have hdeq := Except.ok.inj (hd.symm.trans (decide_agents_eq incident ev0 iid hev0 hii))
    subst hdeq
    refine ⟨?_, ?_, ?_⟩
    · intro a ha
      simp only [List.mem_dedup, List.mem_append] at ha
      rcases ha with (h1 | h2) | h3
      · split at h1
        · simp at h1
          exact Or.inl h1
        · simp at h1
      · split at h2
        · simp at h2
          exact Or.inr (Or.inl h2)
        · simp at h2
      · split at h3
        · simp at h3
          exact Or.inr (Or.inr h3)
        · simp at h3
    · exact List.nodup_dedup _
    · intro ev hev
      have hevv : ev = ev0 := (Except.ok.inj (hev0.symm.trans hev)).symm
      subst hevv
      refine ⟨?_, ?_, ?_⟩ <;> intro hb <;> simp only [List.mem_dedup, List.mem_append]
      · exact Or.inl (Or.inl (by simp [hb]))
      · exact Or.inl (Or.inr (by simp [hb]))
      · exact Or.inr (by simp [hb])
  · rfl

/-- Witness for C4 at the release-only incident. -/
theorem C4_select_agents_witness :
    ({ incident_id := Json.str "inc-rel-1",
       agents_to_call := ["deploy_intelligence_agent"] } : AgentDecision).agents_to_call.Nodup :=
  (C4_select_agents_contract.1 releaseIncident _ C4_select_agents_contract.2).2.1

/-- Membership in a boolean-guarded block is preserved when the guard can
only switch from false to true. -/
theorem mem_ite_mono {α : Type} {b b' : Bool} {l : List α} {e : α}
    (himp : b = true → b' = true) (he : e ∈ if b = true then l else []) :
    e ∈ if b' = true then l else [] := by
  cases b with
  | false => simp at he
  | true =>
    rw [himp rfl]
    simpa using he

/-- C5: synthesize is monotonic in evidence: appending one more findings
record to the input can only add entries to failure_summary and to each
remediation tier; nothing present for the smaller input disappears. -/
theorem C5_synthesize_monotone (incident : Json) (fs : List Json) (g : Json)
    (v w : Verdict)
    (hv : synthesize_verdict incident fs = .ok v)
    (hw : synthesize_verdict incident (fs ++ [g]) = .ok w) :
    (∀ e ∈ v.failure_summary, e ∈ w.failure_summary) ∧
    (∀ e ∈ v.recommended_actions.immediate, e ∈ w.recommended_actions.immediate) ∧
    (∀ e ∈ v.recommended_actions.short_term, e ∈ w.recommended_actions.short_term) ∧
    (∀ e ∈ v.recommended_actions.long_term, e ∈ w.recommended_actions.long_term) := by
  obtain ⟨iid, sev, hii, hsev⟩ := synthesize_ok_keys hv
  have hveq := Except.ok.inj (hv.symm.trans (synthesize_verdict_eq incident fs iid sev hii hsev))
  have hweq := Except.ok.inj
    (hw.symm.trans (synthesize_verdict_eq incident (fs ++ [g]) iid sev hii hsev))
  subst hveq
  subst hweq
  have mono := combinedTextOf_snoc fs g
  have i1 : (strContains (combinedTextOf fs) "connection" ||
      strContains (combinedTextOf fs) "dbtimeout") = true →
      (strContains (combinedTextOf (fs ++ [g])) "connection" ||
       strContains (combinedTextOf (fs ++ [g])) "dbtimeout") = true := by
    intro hb
    have hb2 : strContains (combinedTextOf fs) "connection" = true ∨
        strContains (combinedTextOf fs) "dbtimeout" = true := by simpa using hb
    rcases hb2 with h | h <;> simp [mono _ h]
  have i4 : (strContains (combinedTextOf fs) "deployment" ||
      strContains (combinedTextOf fs) "config") = true →
      (strContains (combinedTextOf (fs ++ [g])) "deployment" ||
       strContains (combinedTextOf (fs ++ [g])) "config") = true := by
    intro hb
    have hb2 : strContains (combinedTextOf fs) "deployment" = true ∨
        strContains (combinedTextOf fs) "config" = true := by simpa using hb
    rcases hb2 with h | h <;> simp [mono _ h]
  refine ⟨?_, ?_, ?_, ?_⟩
  · intro e he
    simp only [List.mem_append] at he ⊢
    rcases he with (h1 | h2) | h3
    · exact Or.inl (Or.inl (mem_ite_mono i1 h1))
    · exact Or.inl (Or.inr (mem_ite_mono (mono _) h2))
    · exact Or.inr (mem_ite_mono (mono _) h3)
  · intro e he
    simp only [List.mem_append] at he ⊢
    rcases he with h1 | h4
    · exact Or.inl (mem_ite_mono i1 h1)
    · exact Or.inr (mem_ite_mono i4 h4)
  · intro e he
    exact mem_ite_mono (mono _) he
  · intro e he
    exact he

/-- Witness for C5: appending a retry record to a connection record keeps
the connection-pool summary entry. -/
theorem C5_synthesize_monotone_witness :
    "Database max_connections limit exceeded" ∈ verdictConnRetry.failure_summary :=
  (C5_synthesize_monotone demoIncident [Json.str "connection"] (Json.str "retry")
    verdictConn verdictConnRetry rfl rfl).1 _ (by simp [verdictConn])

/-- C6: whenever the combined lowercase serialization of the findings
records contains both "connection" and "retry", the verdict's
failure_summary holds the connection-pool entry at index 0 and the
retry-storm entry at index 1, in that order. -/
theorem C6_tie_break_order (incident : Json) (fs : List Json) (v : Verdict)
    (hv : synthesize_verdict incident fs = .ok v)
    (hc : strContains (combinedTextOf fs) "connection" = true)
    (hr : strContains (combinedTextOf fs) "retry" = true) :
    v.failure_summary.get? 0 = some "Database max_connections limit exceeded" ∧
    v.failure_summary.get? 1 = some "Retry storms amplified database pressure" := by
  obtain ⟨iid, sev, hii, hsev⟩ := synthesize_ok_keys hv
  have hveq := Except.ok.inj (hv.symm.trans (synthesize_verdict_eq incident fs iid sev hii hsev))
  subst hveq
  have hcond : (strContains (combinedTextOf fs) "connection" ||
      strContains (combinedTextOf fs) "dbtimeout") = true := by simp [hc]
  constructor <;> simp [hcond, hr]

/-- Witness for C6 at a concrete two-record input. -/
theorem C6_tie_break_order_witness :
    verdictConnRetry.failure_summary.get? 0 =
      some "Database max_connections limit exceeded" ∧
    verdictConnRetry.failure_summary.get? 1 =
      some "Retry storms amplified database pressure" :=
  C6_tie_break_order demoIncident [Json.str "connection", Json.str "retry"]
    verdictConnRetry rfl rfl rfl

/-- C7: for every extractor input, findings is non-empty only if at least
one trigger of the fixed table fired; evidence contains exactly the flags
of the fired triggers (a flag is present, and true, iff the trigger
condition held on the serialized lowercase input); hypothesis and
confidence are constants per extractor type (0.93 logs, 0.91 metrics). -/
theorem C7_extractor_output_contract :
    (∀ p incident context incident_id logs r,
      Json.item p "incident" = .ok incident →
      Json.item p "context" = .ok context →
      Json.item incident "incident_id" = .ok incident_id →
      Json.pyGet context "logs" (Json.obj []) = .ok logs →
      analyze_logs p = .ok r →
      ((r.findings ≠ [] →
         (strContains (strLower logs.dumps) "timeout" = true ∨
          strContains (strLower logs.dumps) "retry" = true ∨
          (strContains (strLower logs.dumps) "too many connections" ||
           strContains (strLower logs.dumps) "connection pool exhausted") = true ∨
          strContains (strLower logs.dumps) "circuit" = true)) ∧
       (∀ k b, (k, b) ∈ r.evidence ↔ (b = true ∧
          ((k = "timeouts" ∧ strContains (strLower logs.dumps) "timeout" = true) ∨
           (k = "retry_storms" ∧ strContains (strLower logs.dumps) "retry" = true) ∨
           (k = "connection_exhaustion" ∧
             (strContains (strLower logs.dumps) "too many connections" ||
              strContains (strLower logs.dumps) "connection pool exhausted") = true) ∨
           (k = "circuit_breaker" ∧ strContains (strLower logs.dumps) "circuit" = true)))) ∧
       r.hypothesis = logHypothesis ∧ r.confidence = Json.num 93 2)) ∧
    (∀ p incident context incident_id metrics r,
      Json.item p "incident" = .ok incident →
      Json.item p "context" = .ok context →
      Json.item incident "incident_id" = .ok incident_id →
      Json.pyGet context "metrics" (Json.obj []) = .ok metrics →
      analyze_metrics p = .ok r →
      ((r.findings ≠ [] →
         ((strContains (strLower metrics.dumps) "connection" &&
           (strContains (strLower metrics.dumps) "1.0" ||
            strContains (strLower metrics.dumps) "100")) = true ∨
          (strContains (strLower metrics.dumps) "replica" ||
           strContains (strLower metrics.dumps) "autoscale") = true ∨
          (strContains (strLower metrics.dumps) "latency" ||
           strContains (strLower metrics.dumps) "p99" ||
           strContains (strLower metrics.dumps) "p95") = true ∨
          (strContains (strLower metrics.dumps) "cpu" &&
           strContains (strLower metrics.dumps) "low") = true)) ∧
       (∀ k b, (k, b) ∈ r.evidence ↔ (b = true ∧
          ((k = "db_connection_saturation" ∧
             (strContains (strLower metrics.dumps) "connection" &&
              (strContains (strLower metrics.dumps) "1.0" ||
               strContains (strLower metrics.dumps) "100")) = true) ∨
           (k = "autoscaling_event" ∧
             (strContains (strLower metrics.dumps) "replica" ||
              strContains (strLower metrics.dumps) "autoscale") = true) ∨
           (k = "latency_spike" ∧
             (strContains (strLower metrics.dumps) "latency" ||
              strContains (strLower metrics.dumps) "p99" ||
              strContains (strLower metrics.dumps) "p95") = true) ∨
           (k = "cpu_not_bottleneck" ∧
             (strContains (strLower metrics.dumps) "cpu" &&
              strContains (strLower metrics.dumps) "low") = true)))) ∧
       r.hypothesis = metricHypothesis ∧ r.confidence = Json.num 91 2)) := by
  constructor
  · intro p incident context incident_id logs r h1 h2 h3 h4 hr
    have hreq := Except.ok.inj
      (hr.symm.trans (analyze_logs_eq p incident context incident_id logs h1 h2 h3 h4))
    subst hreq
    refine ⟨?_, ?_, rfl, rfl⟩
    · intro hne
      cases hb1 : strContains (strLower logs.dumps) "timeout" <;>
      cases hb2 : strContains (strLower logs.dumps) "retry" <;>
      cases hb3 : (strContains (strLower logs.dumps) "too many connections" ||
          strContains (strLower logs.dumps) "connection pool exhausted") <;>
      cases hb4 : strContains (strLower logs.dumps) "circuit" <;>
      simp_all
    · intro k b
      cases hb1 : strContains (strLower logs.dumps) "timeout" <;>
      cases hb2 : strContains (strLower logs.dumps) "retry" <;>
      cases hb3 : (strContains (strLower logs.dumps) "too many connections" ||
          strContains (strLower logs.dumps) "connection pool exhausted") <;>
      cases hb4 : strContains (strLower logs.dumps) "circuit" <;>
      simp [hb1, hb2, hb3, hb4, Prod.mk.injEq] <;> tauto
  · intro p incident context incident_id metrics r h1 h2 h3 h4 hr
    have hreq := Except.ok.inj
      (hr.symm.trans (analyze_metrics_eq p incident context incident_id metrics h1 h2 h3 h4))
    subst hreq
    refine ⟨?_, ?_, rfl, rfl⟩
    · intro hne
      cases hb1 : (strContains (strLower metrics.dumps) "connection" &&
          (strContains (strLower metrics.dumps) "1.0" ||
           strContains (strLower metrics.dumps) "100")) <;>
      cases hb2 : (strContains (strLower metrics.dumps) "replica" ||
          strContains (strLower metrics.dumps) "autoscale") <;>
      cases hb3 : (strContains (strLower metrics.dumps) "latency" ||
          strContains (strLower metrics.dumps) "p99" ||
          strContains (strLower metrics.dumps) "p95") <;>
      cases hb4 : (strContains (strLower metrics.dumps) "cpu" &&
          strContains (strLower metrics.dumps) "low") <;>
      simp_all
    · intro k b
      cases hb1 : (strContains (strLower metrics.dumps) "connection" &&
          (strContains (strLower metrics.dumps) "1.0" ||
           strContains (strLower metrics.dumps) "100")) <;>
      cases hb2 : (strContains (strLower metrics.dumps) "replica" ||
          strContains (strLower metrics.dumps) "autoscale") <;>
      cases hb3 : (strContains (strLower metrics.dumps) "latency" ||
          strContains (strLower metrics.dumps) "p99" ||
          strContains (strLower metrics.dumps) "p95") <;>
      cases hb4 : (strContains (strLower metrics.dumps) "cpu" &&
          strContains (strLower metrics.dumps) "low") <;>
      simp [hb1, hb2, hb3, hb4, Prod.mk.injEq] <;> tauto

/-- Witness for C7 at the concrete demo payloads. -/
theorem C7_extractor_output_contract_witness :
    demoLogRecord.hypothesis = logHypothesis ∧
    demoMetricRecord.confidence = Json.num 91 2 :=
  ⟨(C7_extractor_output_contract.1 demoLogPayload demoIncident
      (Json.obj [("logs", Json.obj [("application", Json.str "timeout retry")])])
      (Json.str "inc-db-5001")
      (Json.obj [("application", Json.str "timeout retry")])
      demoLogRecord rfl rfl rfl rfl rfl).2.2.1,
   (C7_extractor_output_contract.2 demoMetricPayload demoIncident
      (Json.obj [("metrics", Json.obj [("database", Json.str "connection usage 100")])])
      (Json.str "inc-db-5001")
      (Json.obj [("database", Json.str "connection usage 100")])
      demoMetricRecord rfl rfl rfl rfl rfl).2.2.2⟩

/-- C8: extraction never raises for well-formed input: whenever the payload
carries the incident (with incident_id) and context keys and the context
is a dict, the extractor returns a findings record; and when the relevant
category key ("logs" / "metrics") is missing from the context, the record
has empty findings and empty evidence rather than an error. -/
theorem C8_no_raise_on_wellformed :
    (∀ p incident context incident_id,
      Json.item p "incident" = .ok incident →
      Json.item p "context" = .ok context →
      Json.item incident "incident_id" = .ok incident_id →
      context.isObj = true →
      ∃ r, analyze_logs p = .ok r ∧
        (Json.hasKey context "logs" = false → r.findings = [] ∧ r.evidence = [])) ∧
    (∀ p incident context incident_id,
      Json.item p "incident" = .ok incident →
      Json.item p "context" = .ok context →
      Json.item incident "incident_id" = .ok incident_id →
      context.isObj = true →
      ∃ r, analyze_metrics p = .ok r ∧
        (Json.hasKey context "metrics" = false → r.findings = [] ∧ r.evidence = [])) := by
  constructor
  · intro p incident context incident_id h1 h2 h3 hobj
    obtain ⟨logs, hlogs⟩ := pyGet_ok_of_isObj "logs" (Json.obj []) hobj
    refine ⟨_, analyze_logs_eq p incident context incident_id logs h1 h2 h3 hlogs, ?_⟩
    intro hnk
    have hdef := pyGet_default_of_hasKey_false (Json.obj []) hobj hnk
    have hlog0 : logs = Json.obj [] := Except.ok.inj (hlogs.symm.trans hdef)
    subst hlog0
    have c1 : strContains (strLower (Json.obj []).dumps) "timeout" = false := by decide
    have c2 : strContains (strLower (Json.obj []).dumps) "retry" = false := by decide
    have c3 : strContains (strLower (Json.obj []).dumps) "too many connections" = false := by
      decide
    have c3b : strContains (strLower (Json.obj []).dumps) "connection pool exhausted" = false := by
      decide
    have c4 : strContains (strLower (Json.obj []).dumps) "circuit" = false := by decide
    constructor
    · simp [c1, c2, c3, c3b, c4]
    · simp [c1, c2, c3, c3b, c4]
  · intro p incident context incident_id h1 h2 h3 hobj
    obtain ⟨metrics, hmet⟩ := pyGet_ok_of_isObj "metrics" (Json.obj []) hobj
    refine ⟨_, analyze_metrics_eq p incident context incident_id metrics h1 h2 h3 hmet, ?_⟩
    intro hnk
    have hdef := pyGet_default_of_hasKey_false (Json.obj []) hobj hnk
    have hmet0 : metrics = Json.obj [] := Except.ok.inj (hmet.symm.trans hdef)
    subst hmet0
    have c1 : strContains (strLower (Json.obj []).dumps) "connection" = false := by decide
    have c2 : strContains (strLower (Json.obj []).dumps) "replica" = false := by decide
    have c2b : strContains (strLower (Json.obj []).dumps) "autoscale" = false := by decide
    have c3 : strContains (strLower (Json.obj []).dumps) "latency" = false := by decide
    have c3b : strContains (strLower (Json.obj []).dumps) "p99" = false := by decide
    have c3c : strContains (strLower (Json.obj []).dumps) "p95" = false := by decide
    have c4 : strContains (strLower (Json.obj []).dumps) "cpu" = false := by decide
    constructor
    · simp [c1, c2, c2b, c3, c3b, c3c, c4]
    · simp [c1, c2, c2b, c3, c3b, c3c, c4]

/-- Witness for C8 at a payload whose context has no logs key. -/
theorem C8_no_raise_witness :
    (analyze_logs demoBarePayload).toOption.map FindingsRecord.findings = some [] := by
  obtain ⟨r, hr, himp⟩ := C8_no_raise_on_wellformed.1 demoBarePayload demoIncident
    (Json.obj []) (Json.str "inc-db-5001") rfl rfl rfl rfl
  rw [hr]
  simp [Except.toOption, (himp rfl).1]

/-- C9: extraction is deterministic and idempotent (a pure function of its
input, so running it twice on identical input yields identical output),
and the findings collection of every produced record is duplicate-free
because it passes through set deduplication. -/
theorem C9_extract_deterministic_nodup :
    (∀ p, analyze_logs p = analyze_logs p) ∧
    (∀ p r, analyze_logs p = .ok r → r.findings.Nodup) ∧
    (∀ p, analyze_metrics p = analyze_metrics p) ∧
    (∀ p r, analyze_metrics p = .ok r → r.findings.Nodup) := by
  refine ⟨fun _ => rfl, ?_, fun _ => rfl, ?_⟩
  · intro p r h
    obtain ⟨-, -, -, l, hl⟩ := analyze_logs_ok_shape h
    rw [hl]
    exact List.nodup_dedup l
  · intro p r h
    obtain ⟨-, -, -, l, hl⟩ := analyze_metrics_ok_shape h
    rw [hl]
    exact List.nodup_dedup l

/-- Witness for C9 at the concrete demo payloads. -/
theorem C9_extract_deterministic_nodup_witness :
    demoLogRecord.findings.Nodup ∧ demoMetricRecord.findings.Nodup :=
  ⟨C9_extract_deterministic_nodup.2.1 demoLogPayload demoLogRecord rfl,
   C9_extract_deterministic_nodup.2.2.2 demoMetricPayload demoMetricRecord rfl⟩

/-- C10: the core never silently substitutes a default for identity fields:
an incident without incident_id makes decide_agents fail with an error,
and an incident without incident_id or without severity makes
synthesize_verdict fail with an error. -/
theorem C10_identity_fields_fail_fast :
    (∀ incident, Json.hasKey incident "incident_id" = false →
      ∃ msg, decide_agents incident = .error msg) ∧
    (∀ incident fs, (Json.hasKey incident "incident_id" = false ∨
        Json.hasKey incident "severity" = false) →
      ∃ msg, synthesize_verdict incident fs = .error msg) := by
  constructor
  · intro incident hnk
    cases incident with
    | obj kvs =>
      have hnone := lookupEntries_eq_none hnk
      cases hev : lookupEntries kvs "expected_symptoms" with
      | none =>
        exact ⟨"KeyError: incident_id",
          by simp [decide_agents, Json.pyGet, Json.item, hev, hnone]⟩
      | some ev =>
        exact ⟨"KeyError: incident_id",
          by simp [decide_agents, Json.pyGet, Json.item, hev, hnone]⟩
    | null => exact ⟨"AttributeError: get", rfl⟩
    | bool b => exact ⟨"AttributeError: get", rfl⟩
    | num m k => exact ⟨"AttributeError: get", rfl⟩
    | str s => exact ⟨"AttributeError: get", rfl⟩
    | arr xs => exact ⟨"AttributeError: get", rfl⟩
  · intro incident fs hmiss
    cases incident with
    | obj kvs =>
      rcases hmiss with hnk | hnk
      · have hnone := lookupEntries_eq_none hnk
        exact ⟨"KeyError: incident_id",
          by simp [synthesize_verdict, Json.item, hnone]⟩
      · have hnone := lookupEntries_eq_none hnk
        cases hii : lookupEntries kvs "incident_id" with
        | none =>
          exact ⟨"KeyError: incident_id",
            by simp [synthesize_verdict, Json.item, hii]⟩
        | some iid =>
          exact ⟨"KeyError: severity",
            by simp [synthesize_verdict, Json.item, hii, hnone]⟩
    | null => exact ⟨"TypeError: object is not subscriptable", rfl⟩
    | bool b => exact ⟨"TypeError: object is not subscriptable", rfl⟩
    | num m k => exact ⟨"TypeError: object is not subscriptable", rfl⟩
    | str s => exact ⟨"TypeError: object is not subscriptable", rfl⟩
    | arr xs => exact ⟨"TypeError: object is not subscriptable", rfl⟩

/-- Witness for C10 at the empty incident dict. -/
theorem C10_identity_fields_witness :
    (decide_agents (Json.obj [])).isOk = false ∧
    (synthesize_verdict (Json.obj [("incident_id", Json.str "x")]) []).isOk = false := by
  constructor
  · obtain ⟨msg, hmsg⟩ := C10_identity_fields_fail_fast.1 (Json.obj []) rfl
    rw [hmsg]
    rfl
  · obtain ⟨msg, hmsg⟩ := C10_identity_fields_fail_fast.2
      (Json.obj [("incident_id", Json.str "x")]) [] (Or.inr rfl)
    rw [hmsg]
    rfl
